import Mathlib

set_option maxHeartbeats 1000000

namespace BubbleShooter

/-- Special-bubble kind. Embeds the closed union of kinds used throughout
`BubbleShooter.tsx` (`normal`, `bomb`, `rainbow`, `freeze`, `aim`, `obstacle`);
the `SpecialBubble` union itself lives in the missing `constants/levels` module,
but every member is named in the component source. -/
inductive BubbleType where
  | normal
  | bomb
  | rainbow
  | freeze
  | aim
  | obstacle
deriving DecidableEq, Repr

/-- Grid cell payload, as read by `updateActiveBubble` and `drawScene`:
a color string, a bubble kind, and the precomputed center position `(x, y)`.
The `Cell` record type is declared in the missing `lib/gameTypes` module; the
fields here are exactly those the component source accesses (`cell.color`,
`cell.type`, `cell.x`, `cell.y`).  Positions are embedded as rationals
(every JavaScript float is a rational). -/
structure Cell where
  color : String
  type : BubbleType
  x : ℚ
  y : ℚ
deriving DecidableEq, Repr

/-- One grid row: a sequence of cell slots, `none` for an empty slot
(`!cell` in the source skips empty slots). -/
def Row : Type := List (Option Cell)
deriving DecidableEq

/-- The bubble lattice: a list of rows, row `0` topmost, each conceptually
`GRID_COLS` wide. -/
def Grid : Type := List Row
deriving DecidableEq

/-- The traveling projectile, mirroring the object literal built in
`performShoot`: continuous position, unit direction components,
scalar speed, color, kind, id and launch timestamp. -/
structure ActiveBubble where
  id : ℚ
  color : String
  type : BubbleType
  x : ℚ
  y : ℚ
  dx : ℚ
  dy : ℚ
  speed : ℚ
  launchedAt : ℚ
deriving DecidableEq, Repr

/-- Upcoming shooter bubble: color plus kind, as produced by
`generateShooterBubble` in the missing `lib/gameUtils` module and stored
in `nextQueueRef`. -/
structure ShooterBubbleCandidate where
  color : String
  type : BubbleType
deriving DecidableEq, Repr

/-- Per-level parameters, restricted to the fields the embedded component
logic reads: `level`, `descentInterval`, `timeLimitSeconds`, `movingRows`,
`endless`.  The full `LevelConfig` (palette, special-bubble chances, moving
amplitude/speed) lives in the missing `constants/levels` module; the omitted
fields feed only candidate generation and rendering, which are embedded as
explicit inputs. -/
structure LevelConfig where
  level : ℕ
  descentInterval : ℚ
  timeLimitSeconds : Option ℚ
  movingRows : List ℕ
  endless : Bool
deriving DecidableEq, Repr

/-- The mutable runtime record stored in `runtimeRef` (type
`LevelRuntimeState` from the missing `lib/gameTypes`): level, score, combo
multiplier, lives, cleared flag, optional remaining time, last row-drop
timestamp. -/
structure LevelRuntimeState where
  level : LevelConfig
  score : ℕ
  combo : ℕ
  lives : ℤ
  cleared : Bool
  timeLeft : Option ℚ
  lastDropAt : ℚ
deriving DecidableEq, Repr

/-- The per-frame mutable refs of the component gathered into one simulation
state: `runtimeRef`, `gridRef`, `activeBubbleRef`, `freezeUntilRef`,
`aimBoostUntilRef`, `rowOffsetRef`, `shotsRef`, `nextQueueRef`.  Purely
presentational refs (visual effects, status message, dynamic light, canvas)
are outside the engine state. -/
structure SimState where
  runtime : LevelRuntimeState
  grid : Grid
  active : Option ActiveBubble
  freezeUntil : Option ℚ
  aimBoostUntil : Option ℚ
  rowOffsets : List ℚ
  shots : ℕ
  nextQueue : List ShooterBubbleCandidate
deriving DecidableEq

/-- Source constant `MAX_COMBO_MULTIPLIER = 8` (line 49 of the component). -/
def MAX_COMBO_MULTIPLIER : ℕ := 8

/-- Modelled from the spec: the fixed column count `GRID_COLS` of the grid,
declared in the missing `lib/gameUtils` module.  Its numeric value is not in
the source excerpt; the theorems below do not depend on it. -/
def GRID_COLS : ℕ := 14

/-- Modelled from the spec: the maximum row bound `MAX_ROWS` from the missing
`lib/gameUtils` module (rows shifted beyond it are permanently lost). -/
def MAX_ROWS : ℕ := 14

/-- Modelled from the spec: the configured failure row threshold, a row near
the shooter; `gridReachedFailureLine` reports any occupied cell at or beyond
it. -/
def FAILURE_ROW : ℕ := 12

/-- Modelled from the spec: the `clamp` utility imported from the missing
`lib/gameUtils` module; the standard clamp of a value into `[lo, hi]`. -/
def clamp {α : Type} [LinearOrder α] (value lo hi : α) : α :=
  min (max value lo) hi

/-- Playfield metrics object `GAME_METRICS` from the missing `lib/gameUtils`
module; the component reads `width`, `bubbleRadius`, `topMargin` and
`shooterY`.  The embedding is parameterized over the metrics, so no numeric
assumption is made. -/
structure Metrics where
  width : ℚ
  bubbleRadius : ℚ
  topMargin : ℚ
  shooterY : ℚ
deriving DecidableEq, Repr

/-- Modelled from the spec: a concrete metrics sample used only to evaluate
the theorems on explicit inputs (the canvas in the component is 512 wide;
the remaining values are representative). -/
def specMetrics : Metrics :=
  { width := 512, bubbleRadius := 16, topMargin := 70, shooterY := 560 }

/-- Source `computeShotSpeed` (lines 103-104):
`520 + Math.min(level.level * 16, 220)`. -/
def computeShotSpeed (level : LevelConfig) : ℚ :=
  520 + ((min (level.level * 16) 220 : ℕ) : ℚ)

/-- Source `activateNextBubble` (lines 233-239), with the two
`generateShooterBubble(activeLevel)` calls made explicit inputs (`genFill`
used when the remainder of the queue is empty, `genApp` always appended):
destructure the queue into head and rest, refill, and return the consumed
head together with the new queue. -/
def activateNextBubble (genFill genApp : ShooterBubbleCandidate)
    (queue : List ShooterBubbleCandidate) :
    Option ShooterBubbleCandidate × List ShooterBubbleCandidate :=
  let current := queue.head?
  let rest := queue.tail
  let next := if rest.isEmpty then [genFill] else rest
  (current, next ++ [genApp])

/-- The initial shooter queue (lines 167-170), and the queue installed by
`resetLevelState` (lines 209-212): two freshly generated candidates. -/
def initialQueue (g1 g2 : ShooterBubbleCandidate) :
    List ShooterBubbleCandidate := [g1, g2]

/-- Source `handleMatchResults` (lines 250-267): on a non-empty removal the
combo is incremented with a clamp into `[1, MAX_COMBO_MULTIPLIER]` and the
score grows by `removed * 80 + comboBonus * combo * 10` plus a 150 bonus for
six or more removals; otherwise the combo resets to 1. -/
def handleMatchResults (removedCount comboBonus : ℕ)
    (r : LevelRuntimeState) : LevelRuntimeState :=
  if 0 < removedCount then
    let combo1 := clamp (r.combo + 1) 1 MAX_COMBO_MULTIPLIER
    let gained := removedCount * 80 + comboBonus * combo1 * 10 +
      (if 6 ≤ removedCount then 150 else 0)
    { r with combo := combo1, score := r.score + gained }
  else
    { r with combo := 1 }

/-- Source `triggerSpecialEffect` (lines 269-282), restricted to its engine
effect: a removed or fired `freeze` bubble sets `freezeUntilRef` to
`now + 5000`, an `aim` bubble sets `aimBoostUntilRef` to `now + 7000`;
`normal` and `obstacle` (and `bomb`/`rainbow`) change no timer.  The status
message is presentation and is not part of the state. -/
def triggerSpecialEffect (now : ℚ) (t : BubbleType) (s : SimState) : SimState :=
  match t with
  | BubbleType.freeze => { s with freezeUntil := some (now + 5000) }
  | BubbleType.aim => { s with aimBoostUntil := some (now + 7000) }
  | _ => s

/-- Source `performShoot` (lines 339-361).  Rejection guards exactly as in
the source: cleared level or no lives left, then an already active
projectile.  On acceptance the queue head becomes the new active projectile
positioned at the shooter mouth with direction `(cos aimAngle, sin aimAngle)`
— the two trigonometric values are explicit rational inputs, since
`Math.cos`/`Math.sin` return floats — the shot counter increments, and a
non-normal shooter kind triggers its special effect.  `now` stands for the
`Date.now()` / `performance.now()` readings. -/
def performShoot (m : Metrics) (now : ℚ)
    (genFill genApp : ShooterBubbleCandidate) (cosA sinA : ℚ)
    (s : SimState) : SimState :=
  if s.runtime.cleared = true ∨ s.runtime.lives ≤ 0 then s
  else if s.active.isSome then s
  else
    match activateNextBubble genFill genApp s.nextQueue with
    | (none, _) => s
    | (some shooter, queue2) =>
      let b : ActiveBubble :=
        { id := now
          color := shooter.color
          type := shooter.type
          x := m.width / 2
          y := m.shooterY - m.bubbleRadius - 4
          dx := cosA
          dy := sinA
          speed := computeShotSpeed s.runtime.level
          launchedAt := now }
      let s1 := { s with active := some b, nextQueue := queue2,
                         shots := s.shots + 1 }
      if shooter.type ≠ BubbleType.normal then
        triggerSpecialEffect now shooter.type s1
      else s1

/-- Rendering of the source comparison `Math.sqrt a <= t` without leaving the
rationals: for `a ≥ 0`, `√a ≤ t` holds exactly when `0 ≤ t` and `a ≤ t * t`
(see `sqrtLeQ_eq_true_iff` below, proved against `Real.sqrt`). -/
def sqrtLeQ (a t : ℚ) : Bool :=
  decide (0 ≤ t) && decide (a ≤ t * t)

/-- Look up the grid slot at `(row, col)`, as `gridRef.current[row]?.[col]`
does: a missing row or column reads as an empty slot. -/
def cellAt (g : Grid) (row col : ℕ) : Option Cell :=
  (g.getD row []).getD col none

/-- The per-cell contact test of `updateActiveBubble` (lines 464-471): an
empty slot and an `obstacle` cell are skipped (`continue`); otherwise the
Euclidean distance from the projectile center `(bx, by)` to the cell center
(with the row's lateral offset added to the cell's x) is compared with
`bubbleRadius * 2 - 2`. -/
def contactAt (m : Metrics) (offs : List ℚ) (g : Grid) (bx bY : ℚ)
    (p : ℕ × ℕ) : Bool :=
  match cellAt g p.1 p.2 with
  | none => false
  | some cell =>
    if cell.type = BubbleType.obstacle then false
    else
      let off := offs.getD p.1 0
      let cx := cell.x + off
      let dx := bx - cx
      let dy := bY - cell.y
      sqrtLeQ (dx * dx + dy * dy) (m.bubbleRadius * 2 - 2)

/-- The row-major scan order of the nested `for` loops in
`updateActiveBubble` (lines 462-463): all `(row, col)` pairs with
`row < grid.length` and `col < GRID_COLS`. -/
def scanCoords (g : Grid) : List (ℕ × ℕ) :=
  (List.range g.length).flatMap fun r =>
    (List.range GRID_COLS).map fun c => (r, c)

/-- First contacted cell in scan order, or `none`: the nested loop of
`updateActiveBubble` resolves against the first cell whose contact test
fires and otherwise falls through. -/
def findContact (m : Metrics) (offs : List ℚ) (g : Grid) (bx bY : ℚ) :
    Option (ℕ × ℕ) :=
  (scanCoords g).find? (contactAt m offs g bx bY)

/-- The integrated x position after `deltaMs` milliseconds (source line
441): `x + dx * speed * deltaMs/1000`. -/
def integratedX (b : ActiveBubble) (deltaMs : ℚ) : ℚ :=
  b.x + b.dx * b.speed * (deltaMs / 1000)

/-- The integrated y position after `deltaMs` milliseconds (source line
442): `y + dy * speed * deltaMs/1000`. -/
def integratedY (b : ActiveBubble) (deltaMs : ℚ) : ℚ :=
  b.y + b.dy * b.speed * (deltaMs / 1000)

/-- The wall test of source lines 444-447: the integrated x at or outside a
horizontal bound, the bounds being the bubble radius plus a 24 side
margin. -/
def hitsWall (m : Metrics) (b : ActiveBubble) (deltaMs : ℚ) : Prop :=
  integratedX b deltaMs ≤ m.bubbleRadius + 24 ∨
    m.width - (m.bubbleRadius + 24) ≤ integratedX b deltaMs

instance (m : Metrics) (b : ActiveBubble) (deltaMs : ℚ) :
    Decidable (hitsWall m b deltaMs) := by
  unfold hitsWall
  infer_instance

/-- The x position after the wall-bounce step (source lines 449-453):
clamped into the horizontal bounds when the wall test fires. -/
def bouncedX (m : Metrics) (b : ActiveBubble) (deltaMs : ℚ) : ℚ :=
  if hitsWall m b deltaMs then
    clamp (integratedX b deltaMs) (m.bubbleRadius + 24)
      (m.width - (m.bubbleRadius + 24))
  else integratedX b deltaMs

/-- The x direction after the wall-bounce step (source line 448): negated
when the wall test fires. -/
def bouncedDx (m : Metrics) (b : ActiveBubble) (deltaMs : ℚ) : ℚ :=
  if hitsWall m b deltaMs then -b.dx else b.dx

/-- Source `updateActiveBubble` (lines 435-480) for a present projectile.
Position is integrated, then the wall bounce applies, then a projectile at
or above `topMargin + bubbleRadius/2` resolves at the ceiling, and
otherwise the grid is scanned for a contact at the post-bounce position.
The result is the surviving projectile (or `none`) together with the number
of `resolveLanding` calls made this tick; the placement and match
bookkeeping performed inside `resolveLanding` lives in the missing
`lib/gameUtils` module (`placeBubbleOnGrid`, `computeMatchResult`) and is
represented by the resolution count, which is all the claims below
observe. -/
def updateActiveBubble (m : Metrics) (offs : List ℚ) (g : Grid)
    (b : ActiveBubble) (deltaMs : ℚ) : Option ActiveBubble × ℕ :=
  if integratedY b deltaMs ≤ m.topMargin + m.bubbleRadius / 2 then (none, 1)
  else
    match findContact m offs g (bouncedX m b deltaMs)
        (integratedY b deltaMs) with
    | some _ => (none, 1)
    | none =>
      (some { b with
          x := bouncedX m b deltaMs
          y := integratedY b deltaMs
          dx := bouncedDx m b deltaMs }, 0)

/-- The guard at the top of `updateActiveBubble` (lines 437-438): with no
active projectile the tick does nothing and resolves nothing. -/
def updateActive (m : Metrics) (offs : List ℚ) (g : Grid)
    (ab : Option ActiveBubble) (deltaMs : ℚ) : Option ActiveBubble × ℕ :=
  match ab with
  | none => (none, 0)
  | some b => updateActiveBubble m offs g b deltaMs

/-- The freeze test of `dropCycle` (line 386):
`freezeUntilRef.current && freezeUntilRef.current > timestamp`, with
JavaScript truthiness on the stored number made explicit (`0` is falsy). -/
def freezeActive (freezeUntil : Option ℚ) (timestamp : ℚ) : Bool :=
  match freezeUntil with
  | none => false
  | some f => decide (f ≠ 0) && decide (timestamp < f)

/-- The effective descent interval of `dropCycle` (line 387): the level's
interval, scaled by `1.65` while a freeze effect is active. -/
def effectiveInterval (level : LevelConfig) (freezeUntil : Option ℚ)
    (timestamp : ℚ) : ℚ :=
  if freezeActive freezeUntil timestamp then
    level.descentInterval * (33 / 20)
  else level.descentInterval

/-- Modelled from the spec: `dropNewRow` from the missing `lib/gameUtils`
module shifts every existing row down by one index, injects a freshly
synthesized row 0 (passed explicitly, since its contents come from the
level's random color/special distribution), and permanently loses rows
beyond the maximum bound. -/
def dropNewRow (newRow : Row) (g : Grid) : Grid :=
  (newRow :: g).take MAX_ROWS

/-- Occupancy of a row: some slot holds a cell. -/
def rowOccupied (row : Row) : Bool :=
  row.any fun c => c.isSome

/-- Modelled from the spec: `gridReachedFailureLine` from the missing
`lib/gameUtils` module is true exactly when some occupied cell's row index
is at or beyond the configured failure row threshold. -/
def gridReachedFailureLine (g : Grid) : Bool :=
  (g.drop FAILURE_ROW).any rowOccupied

/-- Source `loseLife` (lines 363-380), restricted to engine state: lives
decrease by one, the combo resets to 1, the grid is regenerated by
`generateInitialGrid` (its random output passed explicitly as `initGrid`,
the generator living in the missing `lib/gameUtils` module), the active
projectile is discarded, and when no lives remain the cleared flag is forced
false (the game-over transition). -/
def loseLife (initGrid : Grid) (s : SimState) : SimState :=
  let lives1 := s.runtime.lives - 1
  let r1 := { s.runtime with lives := lives1, combo := 1 }
  let r2 := if lives1 ≤ 0 then { r1 with cleared := false } else r1
  { s with runtime := r2, grid := initGrid, active := none }

/-- Source `dropCycle` (lines 382-400): when the elapsed time since the last
drop reaches the effective interval, a new row is dropped into the grid, the
last-drop timestamp becomes the current timestamp, and the failure line is
immediately re-checked, losing a life on a breach; otherwise nothing
changes. -/
def dropCycle (newRow : Row) (initGrid : Grid) (s : SimState)
    (timestamp : ℚ) : SimState :=
  let interval := effectiveInterval s.runtime.level s.freezeUntil timestamp
  if interval ≤ timestamp - s.runtime.lastDropAt then
    let g1 := dropNewRow newRow s.grid
    let s1 := { s with grid := g1,
                       runtime := { s.runtime with lastDropAt := timestamp } }
    if gridReachedFailureLine g1 then loseLife initGrid s1 else s1
  else s

/-- Source `applyTimeLimit` (lines 402-417): with no time limit configured
this is the identity; otherwise the remaining time shrinks by
`delta / 1000`, and on reaching zero it is pinned at zero, a life is lost
and the last-drop timestamp is refreshed to the current clock reading. -/
def applyTimeLimit (initGrid : Grid) (delta now : ℚ) (s : SimState) :
    SimState :=
  match s.runtime.level.timeLimitSeconds with
  | none => s
  | some _ =>
    let remaining := s.runtime.timeLeft.getD 0 - delta / 1000
    if remaining ≤ 0 then
      let s1 := { s with runtime := { s.runtime with timeLeft := some 0 } }
      let s2 := loseLife initGrid s1
      { s2 with runtime := { s2.runtime with lastDropAt := now } }
    else
      { s with runtime := { s.runtime with timeLeft := some remaining } }

/-- Source `updateMovingRows` (lines 419-433): each row listed in the
level's `movingRows` gets a fresh lateral offset.  The offset value is
`sin(timestamp / (900/speed) + row) * amplitude * parity`; the sampled sine
wave is passed in as the explicit function `wave`, keeping the state update
itself exact. -/
def updateMovingRows (wave : ℕ → ℚ) (level : LevelConfig)
    (offs : List ℚ) : List ℚ :=
  level.movingRows.foldl (fun acc r => acc.set r (wave r)) offs

/-- One iteration of the source `animationLoop` (lines 664-696), restricted
to engine state: descent first (`dropCycle`), then projectile motion and
collision (`updateActiveBubble`), then the moving-row offsets, then the time
limit when the level has one.  Effect pruning, drawing and the dynamic light
are presentation and touch no engine field.  Returns the new state and the
number of projectile resolutions performed in the tick. -/
def animationLoop (m : Metrics) (wave : ℕ → ℚ) (newRow : Row)
    (initGrid : Grid) (s : SimState) (timestamp delta : ℚ) :
    SimState × ℕ :=
  let s1 := dropCycle newRow initGrid s timestamp
  let ur := updateActive m s1.rowOffsets s1.grid s1.active delta
  let s2 := { s1 with active := ur.1 }
  let s3 := { s2 with
    rowOffsets := updateMovingRows wave s2.runtime.level s2.rowOffsets }
  let s4 :=
    match s3.runtime.level.timeLimitSeconds with
    | some _ => applyTimeLimit initGrid delta timestamp s3
    | none => s3
  (s4, ur.2)

/-- Source `resetLevelState` (lines 189-223), runtime portion: score kept
across levels (zeroed only on the first level), combo 1, lives 3, cleared
false, time limit reloaded, drop timer restarted. -/
def resetLevelState (levelIndex : ℕ) (level : LevelConfig) (now : ℚ)
    (r : LevelRuntimeState) : LevelRuntimeState :=
  { level := level
    score := if levelIndex = 0 then 0 else r.score
    combo := 1
    lives := 3
    cleared := false
    timeLeft := level.timeLimitSeconds
    lastDropAt := now }

/-- The initial runtime value of the `useState` initializer (lines 149-157):
score 0, combo 1, lives 3, not cleared. -/
def initialRuntime (level : LevelConfig) (now : ℚ) : LevelRuntimeState :=
  { level := level
    score := 0
    combo := 1
    lives := 3
    cleared := false
    timeLeft := level.timeLimitSeconds
    lastDropAt := now }

/-- A clamped value lies between the bounds whenever the bounds are
ordered. -/
theorem clamp_le_and_le {α : Type} [LinearOrder α] (v lo hi : α)
    (h : lo ≤ hi) : lo ≤ clamp v lo hi ∧ clamp v lo hi ≤ hi :=
  ⟨le_min (le_max_right v lo) h, min_le_right _ _⟩

/-- The rational rendering `sqrtLeQ` agrees with the source comparison
`Math.sqrt a <= t` read over the real numbers. -/
theorem sqrtLeQ_eq_true_iff (a t : ℚ) :
    sqrtLeQ a t = true ↔ Real.sqrt (a : ℝ) ≤ (t : ℝ) := by
  rw [Real.sqrt_le_iff]
  simp only [sqrtLeQ, Bool.and_eq_true, decide_eq_true_eq]
  have hsq : ((t : ℝ)) ^ 2 = ((t * t : ℚ) : ℝ) := by push_cast; ring
  rw [hsq]
  constructor
  · rintro ⟨h0, h1⟩
    exact ⟨by exact_mod_cast h0, by exact_mod_cast h1⟩
  · rintro ⟨h0, h1⟩
    exact ⟨by exact_mod_cast h0, by exact_mod_cast h1⟩

/-- Scan-order membership: the nested loops visit exactly the coordinates
inside the row count and column count. -/
theorem mem_scanCoords (g : Grid) (r c : ℕ) :
    (r, c) ∈ scanCoords g ↔ r < g.length ∧ c < GRID_COLS := by
  simp only [scanCoords, List.mem_flatMap, List.mem_map, List.mem_range,
    Prod.mk.injEq]
  constructor
  · rintro ⟨r1, hr1, c1, hc1, he1, he2⟩
    exact ⟨he1 ▸ hr1, he2 ▸ hc1⟩
  · rintro ⟨hr, hc⟩
    exact ⟨r, hr, c, hc, rfl, rfl⟩

/-- No contact is found exactly when the contact test fails at every scanned
coordinate. -/
theorem findContact_eq_none_iff (m : Metrics) (offs : List ℚ) (g : Grid)
    (bx bY : ℚ) :
    findContact m offs g bx bY = none ↔
      ∀ r c, r < g.length → c < GRID_COLS →
        contactAt m offs g bx bY (r, c) = false := by
  rw [findContact, List.find?_eq_none]
  constructor
  · intro h r c hr hc
    have := h (r, c) ((mem_scanCoords g r c).mpr ⟨hr, hc⟩)
    simpa using this
  · rintro h ⟨r, c⟩ hmem
    have := (mem_scanCoords g r c).mp hmem
    simp [h r c this.1 this.2]

/-- A contact is found exactly when some scanned coordinate passes the
contact test. -/
theorem findContact_isSome_iff (m : Metrics) (offs : List ℚ) (g : Grid)
    (bx bY : ℚ) :
    (findContact m offs g bx bY).isSome = true ↔
      ∃ r c, r < g.length ∧ c < GRID_COLS ∧
        contactAt m offs g bx bY (r, c) = true := by
  rw [findContact, List.find?_isSome]
  constructor
  · rintro ⟨⟨r, c⟩, hmem, hp⟩
    have := (mem_scanCoords g r c).mp hmem
    exact ⟨r, c, this.1, this.2, hp⟩
  · rintro ⟨r, c, hr, hc, hp⟩
    exact ⟨(r, c), (mem_scanCoords g r c).mpr ⟨hr, hc⟩, hp⟩

/-- Unfolding of the per-cell contact test into its three components. -/
theorem contactAt_eq_true_iff (m : Metrics) (offs : List ℚ) (g : Grid)
    (bx bY : ℚ) (r c : ℕ) :
    contactAt m offs g bx bY (r, c) = true ↔
      ∃ cell, cellAt g r c = some cell ∧
        cell.type ≠ BubbleType.obstacle ∧
        sqrtLeQ ((bx - (cell.x + offs.getD r 0)) * (bx - (cell.x + offs.getD r 0)) +
            (bY - cell.y) * (bY - cell.y)) (m.bubbleRadius * 2 - 2) = true := by
  unfold contactAt
  cases hcell : cellAt g r c with
  | none => simp
  | some cell =>
    by_cases ht : cell.type = BubbleType.obstacle <;> simp [ht]

/-- The special-effect trigger never touches the shot counter. -/
theorem triggerSpecialEffect_shots (now : ℚ) (t : BubbleType) (s : SimState) :
    (triggerSpecialEffect now t s).shots = s.shots := by
  cases t <;> rfl

/-- The special-effect trigger never touches the active projectile. -/
theorem triggerSpecialEffect_active (now : ℚ) (t : BubbleType) (s : SimState) :
    (triggerSpecialEffect now t s).active = s.active := by
  cases t <;> rfl

/-- C8: the shooter candidate queue always has length exactly 2 and is never
empty: the initial queue has length 2, and from any queue of length 2 a fire
consumes the head (`activateNextBubble` returns exactly the queue head) and
replenishment restores the queue to length 2, in particular leaving it
non-empty. -/
theorem c8_queue_length_invariant
    (genFill genApp g1 g2 : ShooterBubbleCandidate)
    (q : List ShooterBubbleCandidate) (hq : q.length = 2) :
    (activateNextBubble genFill genApp q).2.length = 2 ∧
    (activateNextBubble genFill genApp q).1 = q.head? ∧
    (activateNextBubble genFill genApp q).2 ≠ [] ∧
    (initialQueue g1 g2).length = 2 := by
  match q, hq with
  | [a, b], _ =>
    refine ⟨rfl, rfl, ?_, rfl⟩
    simp [activateNextBubble]

/-- C8 witness: the invariant evaluated on a concrete length-2 queue. -/
theorem c8_queue_length_invariant_witness :
    (activateNextBubble ⟨"f", BubbleType.normal⟩ ⟨"g", BubbleType.normal⟩
      [⟨"a", BubbleType.normal⟩, ⟨"b", BubbleType.bomb⟩]).2.length = 2 ∧
    (activateNextBubble ⟨"f", BubbleType.normal⟩ ⟨"g", BubbleType.normal⟩
      [⟨"a", BubbleType.normal⟩, ⟨"b", BubbleType.bomb⟩]).1 =
      some ⟨"a", BubbleType.normal⟩ := by
  have h := c8_queue_length_invariant ⟨"f", BubbleType.normal⟩
    ⟨"g", BubbleType.normal⟩ ⟨"x", BubbleType.normal⟩ ⟨"y", BubbleType.normal⟩
    [⟨"a", BubbleType.normal⟩, ⟨"b", BubbleType.bomb⟩] rfl
  exact ⟨h.1, h.2.1.trans rfl⟩

/-- Sample level used to evaluate theorems on explicit inputs. -/
def wLevel : LevelConfig :=
  { level := 1, descentInterval := 100, timeLimitSeconds := none,
    movingRows := [], endless := false }

/-- Sample runtime at the combo ceiling, for explicit evaluation. -/
def wRuntime8 : LevelRuntimeState :=
  { level := wLevel, score := 0, combo := 8, lives := 3, cleared := false,
    timeLeft := none, lastDropAt := 0 }

/-- Sample simulation state built over `wRuntime8`. -/
def wSimState : SimState :=
  { runtime := wRuntime8, grid := [], active := none, freezeUntil := none,
    aimBoostUntil := none, rowOffsets := [], shots := 0, nextQueue := [] }

/-- The combo written by a match result, extracted. -/
theorem handleMatchResults_combo (removed comboBonus : ℕ)
    (r : LevelRuntimeState) :
    (handleMatchResults removed comboBonus r).combo =
      if 0 < removed then clamp (r.combo + 1) 1 MAX_COMBO_MULTIPLIER
      else 1 := by
  unfold handleMatchResults
  by_cases h : 0 < removed <;> simp [h]

/-- C10: the combo multiplier stays in the closed interval
`[1, MAX_COMBO_MULTIPLIER]`: it is 1 initially, a match result with removed
cells moves a combo in `[1, 8]` to `min (combo + 1) 8` (the clamp), a match
result without removed cells resets it to 1, and both losing a life and
resetting the level set it back to 1. -/
theorem c10_combo_multiplier_bounds (removed comboBonus : ℕ)
    (r : LevelRuntimeState) (initGrid : Grid) (s : SimState)
    (levelIndex : ℕ) (level : LevelConfig) (now : ℚ)
    (h1 : 1 ≤ r.combo) (h8 : r.combo ≤ MAX_COMBO_MULTIPLIER) :
    (1 ≤ (handleMatchResults removed comboBonus r).combo ∧
      (handleMatchResults removed comboBonus r).combo ≤ MAX_COMBO_MULTIPLIER) ∧
    (0 < removed → (handleMatchResults removed comboBonus r).combo =
      min (r.combo + 1) MAX_COMBO_MULTIPLIER) ∧
    (removed = 0 → (handleMatchResults removed comboBonus r).combo = 1) ∧
    (loseLife initGrid s).runtime.combo = 1 ∧
    (resetLevelState levelIndex level now r).combo = 1 ∧
    (initialRuntime level now).combo = 1 := by
  have hM : MAX_COMBO_MULTIPLIER = 8 := rfl
  have hclamp : clamp (r.combo + 1) 1 MAX_COMBO_MULTIPLIER =
      min (r.combo + 1) MAX_COMBO_MULTIPLIER := by
    unfold clamp
    rw [hM]
    omega
  have hlose : (loseLife initGrid s).runtime.combo = 1 := by
    unfold loseLife
    by_cases h : s.runtime.lives - 1 ≤ 0 <;> simp [h]
  refine ⟨?_, ?_, ?_, hlose, rfl, rfl⟩
  · rw [handleMatchResults_combo]
    by_cases h : 0 < removed
    · rw [if_pos h, hclamp, hM]
      rw [hM] at h8
      omega
    · rw [if_neg h, hM]
      omega
  · intro h
    rw [handleMatchResults_combo, if_pos h, hclamp]
  · intro h
    rw [handleMatchResults_combo, if_neg (by omega)]

/-- C10 witness: the bounds evaluated at a concrete runtime with combo 8
(the clamp holds it at 8), plus the reset path on an empty removal. -/
theorem c10_combo_multiplier_bounds_witness :
    (handleMatchResults 4 1 wRuntime8).combo = 8 ∧
    (handleMatchResults 0 0 wRuntime8).combo = 1 := by
  have h := c10_combo_multiplier_bounds 4 1 wRuntime8 [] wSimState 0 wLevel 0
    (by decide) (by decide)
  have h0 := c10_combo_multiplier_bounds 0 0 wRuntime8 [] wSimState 0 wLevel 0
    (by decide) (by decide)
  exact ⟨(h.2.1 (by decide)).trans (by decide), h0.2.2.1 rfl⟩

/-- C4: within a tick, `updateActiveBubble` resolves at most once, a tick
that resolves leaves no active projectile, and with no active projectile a
tick resolves nothing (so no further resolution can happen until a new
fire installs a projectile). -/
theorem c4_at_most_one_resolution (m : Metrics) (offs : List ℚ) (g : Grid)
    (ab : Option ActiveBubble) (deltaMs : ℚ) :
    (updateActive m offs g ab deltaMs).2 ≤ 1 ∧
    ((updateActive m offs g ab deltaMs).2 = 1 →
      (updateActive m offs g ab deltaMs).1 = none) ∧
    updateActive m offs g none deltaMs = (none, 0) := by
  refine ⟨?_, ?_, rfl⟩ <;>
  · cases ab with
    | none => simp [updateActive]
    | some b =>
      simp only [updateActive, updateActiveBubble]
      split
      · simp
      · split <;> simp

/-- Sample projectile that resolves at the ceiling, for explicit
evaluation. -/
def wCeilBubble : ActiveBubble :=
  { id := 0, color := "red", type := BubbleType.normal, x := 100,
    y := 10, dx := 0, dy := 0, speed := 0, launchedAt := 0 }

/-- C4 witness: a concrete tick that resolves at the ceiling leaves no
active projectile, and a tick with no projectile resolves nothing. -/
theorem c4_at_most_one_resolution_witness :
    (updateActive specMetrics [] [] (some wCeilBubble) 0).1 = none ∧
    updateActive specMetrics [] [] none 16 = (none, 0) := by
  have h := c4_at_most_one_resolution specMetrics [] [] (some wCeilBubble) 0
  have h2 := c4_at_most_one_resolution specMetrics [] [] none 16
  refine ⟨h.2.1 ?_, h2.2.2⟩
  show (updateActive specMetrics [] [] (some wCeilBubble) 0).2 = 1
  norm_num [updateActive, updateActiveBubble, integratedY, wCeilBubble,
    specMetrics]

/-- C3: a fire request is a silent no-op exactly when a projectile is
already active, the level is cleared, or no lives remain; otherwise it
creates the one new Active Projectile and counts the shot. -/
theorem c3_fire_admission_control (m : Metrics) (now : ℚ)
    (genFill genApp : ShooterBubbleCandidate) (cosA sinA : ℚ) (s : SimState)
    (hq : s.nextQueue ≠ []) :
    (performShoot m now genFill genApp cosA sinA s = s ↔
      (s.runtime.cleared = true ∨ s.runtime.lives ≤ 0 ∨ s.active ≠ none)) ∧
    (¬(s.runtime.cleared = true ∨ s.runtime.lives ≤ 0 ∨ s.active ≠ none) →
      (performShoot m now genFill genApp cosA sinA s).active.isSome = true ∧
      (performShoot m now genFill genApp cosA sinA s).shots = s.shots + 1) := by
  by_cases h1 : s.runtime.cleared = true ∨ s.runtime.lives ≤ 0
  · have heq : performShoot m now genFill genApp cosA sinA s = s := by
      unfold performShoot
      rw [if_pos h1]
    refine ⟨⟨fun _ => ?_, fun _ => heq⟩, fun hno => absurd ?_ hno⟩
    · rcases h1 with h | h
      · exact Or.inl h
      · exact Or.inr (Or.inl h)
    · rcases h1 with h | h
      · exact Or.inl h
      · exact Or.inr (Or.inl h)
  · by_cases h2 : s.active.isSome = true
    · have hne : s.active ≠ none := by
        intro hcontra
        rw [hcontra] at h2
        simp at h2
      have heq : performShoot m now genFill genApp cosA sinA s = s := by
        unfold performShoot
        rw [if_neg h1, if_pos h2]
      exact ⟨⟨fun _ => Or.inr (Or.inr hne), fun _ => heq⟩,
        fun hno => absurd (Or.inr (Or.inr hne)) hno⟩
    · have hnone : s.active = none := by
        cases ha : s.active with
        | none => rfl
        | some b => rw [ha] at h2; simp at h2
      obtain ⟨a, t, hqe⟩ : ∃ a t, s.nextQueue = a :: t := by
        cases hq2 : s.nextQueue with
        | nil => exact absurd hq2 hq
        | cons a t => exact ⟨a, t, rfl⟩
      have hred : ∀ u : SimState, u =
          (if a.type ≠ BubbleType.normal then
            triggerSpecialEffect now a.type
              { s with
                active := some
                  { id := now, color := a.color, type := a.type,
                    x := m.width / 2,
                    y := m.shooterY - m.bubbleRadius - 4,
                    dx := cosA, dy := sinA,
                    speed := computeShotSpeed s.runtime.level,
                    launchedAt := now },
                nextQueue := (if t.isEmpty then [genFill] else t) ++ [genApp],
                shots := s.shots + 1 }
          else
            { s with
                active := some
                  { id := now, color := a.color, type := a.type,
                    x := m.width / 2,
                    y := m.shooterY - m.bubbleRadius - 4,
                    dx := cosA, dy := sinA,
                    speed := computeShotSpeed s.runtime.level,
                    launchedAt := now },
                nextQueue := (if t.isEmpty then [genFill] else t) ++ [genApp],
                shots := s.shots + 1 }) →
          (u.shots = s.shots + 1 ∧ u.active.isSome = true) := by
        intro u hu
        by_cases ht : a.type = BubbleType.normal
        · rw [hu, if_neg (by simp [ht])]
          exact ⟨rfl, rfl⟩
        · rw [hu, if_pos ht]
          rw [triggerSpecialEffect_shots, triggerSpecialEffect_active]
          exact ⟨rfl, rfl⟩
      have hform : performShoot m now genFill genApp cosA sinA s =
          (if a.type ≠ BubbleType.normal then
            triggerSpecialEffect now a.type
              { s with
                active := some
                  { id := now, color := a.color, type := a.type,
                    x := m.width / 2,
                    y := m.shooterY - m.bubbleRadius - 4,
                    dx := cosA, dy := sinA,
                    speed := computeShotSpeed s.runtime.level,
                    launchedAt := now },
                nextQueue := (if t.isEmpty then [genFill] else t) ++ [genApp],
                shots := s.shots + 1 }
          else
            { s with
                active := some
                  { id := now, color := a.color, type := a.type,
                    x := m.width / 2,
                    y := m.shooterY - m.bubbleRadius - 4,
                    dx := cosA, dy := sinA,
                    speed := computeShotSpeed s.runtime.level,
                    launchedAt := now },
                nextQueue := (if t.isEmpty then [genFill] else t) ++ [genApp],
                shots := s.shots + 1 }) := by
        unfold performShoot
        rw [if_neg h1, if_neg h2, hqe]
        rfl
      obtain ⟨hshots, hactive⟩ := hred _ hform
      have hneq : performShoot m now genFill genApp cosA sinA s ≠ s := by
        intro he
        have := congrArg SimState.shots he
        rw [hshots] at this
        omega
      refine ⟨⟨fun he => absurd he hneq, ?_⟩, fun _ => ⟨hactive, hshots⟩⟩
      rintro (h | h | h)
      · exact absurd (Or.inl h) h1
      · exact absurd (Or.inr h) h1
      · exact absurd hnone h

/-- Sample candidate for explicit evaluation. -/
def wCand : ShooterBubbleCandidate := { color := "red", type := BubbleType.normal }

/-- Sample state ready to fire: empty-handed shooter, two queued candidates. -/
def wQueueState : SimState :=
  { wSimState with nextQueue := [wCand, { color := "blue", type := BubbleType.normal }] }

/-- Sample state with a projectile already in flight. -/
def wActiveState : SimState :=
  { wQueueState with active := some wCeilBubble }

/-- C3 witness: on a concrete ready state the fire counts a shot and
installs a projectile; on a concrete state with a projectile in flight the
fire is a no-op. -/
theorem c3_fire_admission_control_witness :
    (performShoot specMetrics 0 wCand wCand 0 (-1) wQueueState).shots = 1 ∧
    performShoot specMetrics 0 wCand wCand 0 (-1) wActiveState =
      wActiveState := by
  have h := c3_fire_admission_control specMetrics 0 wCand wCand 0 (-1)
    wQueueState (by simp [wQueueState, wSimState])
  have h2 := c3_fire_admission_control specMetrics 0 wCand wCand 0 (-1)
    wActiveState (by simp [wActiveState, wQueueState, wSimState])
  constructor
  · exact ((h.2 (by simp [wQueueState, wSimState, wRuntime8])).2).trans
      (by simp [wQueueState, wSimState])
  · exact h2.1.mpr (Or.inr (Or.inr (by simp [wActiveState])))

/-- The life-loss transition leaves the engine in a definite shape: no
active projectile, regenerated grid, one life fewer, combo 1, level and
row offsets untouched. -/
theorem loseLife_fields (initGrid : Grid) (s : SimState) :
    (loseLife initGrid s).active = none ∧
    (loseLife initGrid s).grid = initGrid ∧
    (loseLife initGrid s).runtime.lives = s.runtime.lives - 1 ∧
    (loseLife initGrid s).runtime.level = s.runtime.level ∧
    (loseLife initGrid s).rowOffsets = s.rowOffsets ∧
    (loseLife initGrid s).runtime.lastDropAt = s.runtime.lastDropAt ∧
    (loseLife initGrid s).runtime.timeLeft = s.runtime.timeLeft := by
  by_cases h : s.runtime.lives - 1 ≤ 0 <;> simp [loseLife, h]

/-- A firing descent step that breaches the failure line is exactly a life
loss over the dropped grid with the drop timer refreshed. -/
theorem dropCycle_fires_breach (newRow : Row) (initGrid : Grid)
    (s : SimState) (ts : ℚ)
    (hf : effectiveInterval s.runtime.level s.freezeUntil ts ≤
      ts - s.runtime.lastDropAt)
    (hb : gridReachedFailureLine (dropNewRow newRow s.grid) = true) :
    dropCycle newRow initGrid s ts =
      loseLife initGrid
        { s with
            grid := dropNewRow newRow s.grid
            runtime := { s.runtime with lastDropAt := ts } } := by
  unfold dropCycle
  rw [if_pos hf, if_pos hb]

/-- A firing descent step that stays above the failure line just installs
the dropped grid and refreshes the drop timer. -/
theorem dropCycle_fires_no_breach (newRow : Row) (initGrid : Grid)
    (s : SimState) (ts : ℚ)
    (hf : effectiveInterval s.runtime.level s.freezeUntil ts ≤
      ts - s.runtime.lastDropAt)
    (hb : gridReachedFailureLine (dropNewRow newRow s.grid) = false) :
    dropCycle newRow initGrid s ts =
      { s with
          grid := dropNewRow newRow s.grid
          runtime := { s.runtime with lastDropAt := ts } } := by
  unfold dropCycle
  rw [if_pos hf, if_neg (by rw [hb]; exact Bool.false_ne_true)]

/-- A descent step before the effective interval elapses changes nothing. -/
theorem dropCycle_skips (newRow : Row) (initGrid : Grid) (s : SimState)
    (ts : ℚ)
    (hf : ts - s.runtime.lastDropAt <
      effectiveInterval s.runtime.level s.freezeUntil ts) :
    dropCycle newRow initGrid s ts = s := by
  unfold dropCycle
  rw [if_neg (not_le.mpr hf)]

/-- C7: the descent controller drops a row exactly when the elapsed time
since the last drop reaches the effective interval — the level interval,
scaled by the 1.65 slow-down factor while a freeze effect is active.  On a
drop the grid becomes the dropped grid, the last-drop timestamp becomes the
current timestamp, and the failure line is immediately re-checked, losing a
life (and regenerating the grid) on a breach; otherwise the whole state is
unchanged. -/
theorem c7_descent_controller (newRow : Row) (initGrid : Grid)
    (s : SimState) (ts : ℚ) :
    (effectiveInterval s.runtime.level s.freezeUntil ts ≤
        ts - s.runtime.lastDropAt →
      ((dropCycle newRow initGrid s ts).runtime.lastDropAt = ts ∧
       (dropCycle newRow initGrid s ts).grid =
         (if gridReachedFailureLine (dropNewRow newRow s.grid) = true
          then initGrid else dropNewRow newRow s.grid) ∧
       (gridReachedFailureLine (dropNewRow newRow s.grid) = true →
         (dropCycle newRow initGrid s ts).runtime.lives =
           s.runtime.lives - 1))) ∧
    (ts - s.runtime.lastDropAt <
        effectiveInterval s.runtime.level s.freezeUntil ts →
      dropCycle newRow initGrid s ts = s) ∧
    (freezeActive s.freezeUntil ts = true →
      effectiveInterval s.runtime.level s.freezeUntil ts =
        s.runtime.level.descentInterval * (33 / 20)) := by
  refine ⟨?_, dropCycle_skips newRow initGrid s ts, ?_⟩
  · intro hf
    cases hb : gridReachedFailureLine (dropNewRow newRow s.grid) with
    | true =>
      rw [dropCycle_fires_breach newRow initGrid s ts hf hb]
      have h := loseLife_fields initGrid
        { s with
            grid := dropNewRow newRow s.grid
            runtime := { s.runtime with lastDropAt := ts } }
      refine ⟨h.2.2.2.2.2.1.trans rfl, ?_, fun _ => h.2.2.1.trans rfl⟩
      rw [if_pos rfl]
      exact h.2.1
    | false =>
      rw [dropCycle_fires_no_breach newRow initGrid s ts hf hb]
      refine ⟨rfl, ?_, fun hcontra => absurd hcontra Bool.false_ne_true⟩
      rw [if_neg Bool.false_ne_true]
  · intro hfr
    unfold effectiveInterval
    rw [if_pos hfr]

/-- Sample occupied cell for explicit evaluation. -/
def wRedCell : Cell :=
  { color := "red", type := BubbleType.normal, x := 100, y := 100 }

/-- Sample grid whose last row sits on the failure row, so that one more
descent breaches the failure line. -/
def wDeepGrid : Grid := List.replicate 12 ([] : Row) ++ [[some wRedCell]]

/-- Sample state about to breach on its next descent. -/
def wDeepState : SimState := { wSimState with grid := wDeepGrid }

/-- C7 witness: on a concrete state whose descent is due at timestamp 100
and whose dropped grid breaches the failure line, the drop fires, the drop
timer updates to 100 and a life is lost; at timestamp 50 the same state is
untouched. -/
theorem c7_descent_controller_witness :
    (dropCycle [] [] wDeepState 100).runtime.lastDropAt = 100 ∧
    (dropCycle [] [] wDeepState 100).runtime.lives = 2 ∧
    dropCycle [] [] wDeepState 50 = wDeepState := by
  have h := (c7_descent_controller [] [] wDeepState 100).1 (by
    norm_num [effectiveInterval, freezeActive, wDeepState, wSimState,
      wRuntime8, wLevel])
  have hb : gridReachedFailureLine (dropNewRow [] wDeepState.grid) = true := by
    simp [gridReachedFailureLine, dropNewRow, wDeepState, wSimState,
      wDeepGrid, FAILURE_ROW, MAX_ROWS, rowOccupied]
  have h2 := (c7_descent_controller [] [] wDeepState 50).2.1 (by
    norm_num [effectiveInterval, freezeActive, wDeepState, wSimState,
      wRuntime8, wLevel])
  refine ⟨h.1, (h.2.2 hb).trans (by simp [wDeepState, wSimState, wRuntime8]),
    h2⟩

/-- C5: whenever the integrated x position is at or outside a horizontal
bound (bubble radius plus the 24 side margin), and the tick resolves
neither at the ceiling nor on a bubble contact, the projectile survives the
tick with its horizontal direction component negated and its x clamped back
inside the bounds. -/
theorem c5_wall_bounce (m : Metrics) (offs : List ℚ) (g : Grid)
    (b : ActiveBubble) (deltaMs : ℚ)
    (hwall : hitsWall m b deltaMs)
    (hceil : m.topMargin + m.bubbleRadius / 2 < integratedY b deltaMs)
    (hnoc : findContact m offs g (bouncedX m b deltaMs)
      (integratedY b deltaMs) = none) :
    updateActiveBubble m offs g b deltaMs =
      (some { b with
          x := clamp (integratedX b deltaMs) (m.bubbleRadius + 24)
            (m.width - (m.bubbleRadius + 24))
          y := integratedY b deltaMs
          dx := -b.dx }, 0) := by
  have hbx : bouncedX m b deltaMs =
      clamp (integratedX b deltaMs) (m.bubbleRadius + 24)
        (m.width - (m.bubbleRadius + 24)) := by
    unfold bouncedX
    rw [if_pos hwall]
  have hdx : bouncedDx m b deltaMs = -b.dx := by
    unfold bouncedDx
    rw [if_pos hwall]
  unfold updateActiveBubble
  rw [if_neg (not_le.mpr hceil), hnoc, hbx, hdx]

/-- Sample projectile one unit outside the left bound of the sample
metrics (left bound 40), aimed left. -/
def wWallBubble : ActiveBubble :=
  { id := 0, color := "red", type := BubbleType.normal, x := 39, y := 300,
    dx := -1, dy := 0, speed := 0, launchedAt := 0 }

/-- C5 witness: the spec scenario at the sample metrics: a projectile at
x = leftBound - 1 with dx = -1 ends the tick with dx = +1 and x clamped to
the left bound. -/
theorem c5_wall_bounce_witness :
    updateActiveBubble specMetrics [] [] wWallBubble 0 =
      (some { wWallBubble with x := 40, dx := 1 }, 0) := by
  have h := c5_wall_bounce specMetrics [] [] wWallBubble 0
    (Or.inl (by norm_num [integratedX, wWallBubble, specMetrics]))
    (by norm_num [integratedY, wWallBubble, specMetrics])
    (by
      rw [findContact_eq_none_iff]
      intro r c hr _
      simp at hr)
  rw [h]
  norm_num [integratedX, integratedY, wWallBubble, specMetrics, clamp]

/-- C6 (amended): with the tick not resolving at the ceiling, the
projectile resolves as a placement exactly when some occupied,
non-obstacle cell has Euclidean distance from the post-bounce projectile
center to the cell center (with the row's lateral offset applied to the
cell's x) at most two bubble radii minus the overlap tolerance 2 — stated
through `sqrtLeQ`, the exact rational rendering of the source's
`Math.sqrt(..) <= radius * 2 - 2`. -/
theorem c6_contact_distance_characterization (m : Metrics) (offs : List ℚ)
    (g : Grid) (b : ActiveBubble) (deltaMs : ℚ)
    (hceil : m.topMargin + m.bubbleRadius / 2 < integratedY b deltaMs) :
    (updateActiveBubble m offs g b deltaMs).2 = 1 ↔
      ∃ r c cell, r < g.length ∧ c < GRID_COLS ∧ cellAt g r c = some cell ∧
        cell.type ≠ BubbleType.obstacle ∧
        sqrtLeQ
          ((bouncedX m b deltaMs - (cell.x + offs.getD r 0)) *
              (bouncedX m b deltaMs - (cell.x + offs.getD r 0)) +
            (integratedY b deltaMs - cell.y) *
              (integratedY b deltaMs - cell.y))
          (m.bubbleRadius * 2 - 2) = true := by
  unfold updateActiveBubble
  rw [if_neg (not_le.mpr hceil)]
  constructor
  · intro h1
    cases hfc : findContact m offs g (bouncedX m b deltaMs)
        (integratedY b deltaMs) with
    | none => rw [hfc] at h1; simp at h1
    | some rc =>
      have hs : (findContact m offs g (bouncedX m b deltaMs)
          (integratedY b deltaMs)).isSome = true := by
        rw [hfc]; rfl
      obtain ⟨r, c, hr, hc, hct⟩ := (findContact_isSome_iff m offs g _ _).mp hs
      obtain ⟨cell, hcell, hobs, hdist⟩ :=
        (contactAt_eq_true_iff m offs g _ _ r c).mp hct
      exact ⟨r, c, cell, hr, hc, hcell, hobs, hdist⟩
  · rintro ⟨r, c, cell, hr, hc, hcell, hobs, hdist⟩
    have hct : contactAt m offs g (bouncedX m b deltaMs)
        (integratedY b deltaMs) (r, c) = true :=
      (contactAt_eq_true_iff m offs g _ _ r c).mpr ⟨cell, hcell, hobs, hdist⟩
    have hs := (findContact_isSome_iff m offs g (bouncedX m b deltaMs)
      (integratedY b deltaMs)).mpr ⟨r, c, hr, hc, hct⟩
    cases hfc : findContact m offs g (bouncedX m b deltaMs)
        (integratedY b deltaMs) with
    | none => rw [hfc] at hs; simp at hs
    | some rc => rfl

/-- Sample obstacle cell with its center at `(100, 200)`. -/
def wObstacleCell : Cell :=
  { color := "#445", type := BubbleType.obstacle, x := 100, y := 200 }

/-- One-cell grid holding only the obstacle. -/
def wObstacleGrid : Grid := [[some wObstacleCell]]

/-- Sample stationary projectile exactly at the obstacle cell's center. -/
def wTouchBubble : ActiveBubble :=
  { id := 0, color := "red", type := BubbleType.normal, x := 100, y := 200,
    dx := 0, dy := 0, speed := 0, launchedAt := 0 }

/-- The contact scan of the one-obstacle grid finds nothing, whatever the
projectile position: the obstacle branch and the out-of-row branches of the
scan are all `false`. -/
theorem findContact_wObstacleGrid (bx bY : ℚ) :
    findContact specMetrics [] wObstacleGrid bx bY = none := by
  rw [findContact_eq_none_iff]
  intro r c hr _
  have hr0 : r = 0 := by
    simp [wObstacleGrid] at hr
    omega
  subst hr0
  cases c with
  | zero => rfl
  | succ c2 => rfl

/-- C1 counterexample: the projectile sits at distance 0 from an occupied
`obstacle` cell — well within contact distance — yet the tick resolves
nothing and the projectile survives unchanged, contradicting "obstacles
count as collidable". -/
theorem c1_counterexample_obstacle_contact_ignored :
    wObstacleCell.type = BubbleType.obstacle ∧
    cellAt wObstacleGrid 0 0 = some wObstacleCell ∧
    sqrtLeQ
      ((bouncedX specMetrics wTouchBubble 0 -
          (wObstacleCell.x + ([] : List ℚ).getD 0 0)) *
        (bouncedX specMetrics wTouchBubble 0 -
          (wObstacleCell.x + ([] : List ℚ).getD 0 0)) +
        (integratedY wTouchBubble 0 - wObstacleCell.y) *
          (integratedY wTouchBubble 0 - wObstacleCell.y))
      (specMetrics.bubbleRadius * 2 - 2) = true ∧
    updateActiveBubble specMetrics [] wObstacleGrid wTouchBubble 0 =
      (some wTouchBubble, 0) := by
  refine ⟨rfl, rfl, ?_, ?_⟩
  · norm_num [sqrtLeQ, bouncedX, bouncedDx, hitsWall, integratedX,
      integratedY, clamp, wTouchBubble, wObstacleCell, specMetrics]
  · unfold updateActiveBubble
    rw [if_neg (by norm_num [integratedY, wTouchBubble, specMetrics]),
      findContact_wObstacleGrid]
    norm_num [bouncedX, bouncedDx, hitsWall, integratedX, integratedY,
      wTouchBubble, specMetrics]

/-- C1 (amended): the bubble-contact scan skips `obstacle` cells (they are
not collidable); for every tick in which the post-bounce projectile is
within contact distance of an occupied, non-obstacle cell and the tick does
not resolve at the ceiling, the projectile resolves as a placement and the
Active Projectile is destroyed. -/
theorem c1_contact_scan_excludes_obstacles (m : Metrics) (offs : List ℚ)
    (g : Grid) (b : ActiveBubble) (deltaMs : ℚ) (r c : ℕ) (cell : Cell)
    (hceil : m.topMargin + m.bubbleRadius / 2 < integratedY b deltaMs)
    (hr : r < g.length) (hc : c < GRID_COLS)
    (hcell : cellAt g r c = some cell)
    (hobs : cell.type ≠ BubbleType.obstacle)
    (hdist : sqrtLeQ
      ((bouncedX m b deltaMs - (cell.x + offs.getD r 0)) *
          (bouncedX m b deltaMs - (cell.x + offs.getD r 0)) +
        (integratedY b deltaMs - cell.y) * (integratedY b deltaMs - cell.y))
      (m.bubbleRadius * 2 - 2) = true) :
    updateActiveBubble m offs g b deltaMs = (none, 1) := by
  have hct : contactAt m offs g (bouncedX m b deltaMs)
      (integratedY b deltaMs) (r, c) = true :=
    (contactAt_eq_true_iff m offs g _ _ r c).mpr ⟨cell, hcell, hobs, hdist⟩
  have hs := (findContact_isSome_iff m offs g (bouncedX m b deltaMs)
    (integratedY b deltaMs)).mpr ⟨r, c, hr, hc, hct⟩
  unfold updateActiveBubble
  rw [if_neg (not_le.mpr hceil)]
  cases hfc : findContact m offs g (bouncedX m b deltaMs)
      (integratedY b deltaMs) with
  | none => rw [hfc] at hs; simp at hs
  | some rc => rfl

/-- Sample rainbow cell with its center at `(200, 300)`. -/
def wRainbowCell : Cell :=
  { color := "gold", type := BubbleType.rainbow, x := 200, y := 300 }

/-- Sample stationary projectile at the rainbow cell's center. -/
def wC1Bubble : ActiveBubble :=
  { id := 0, color := "red", type := BubbleType.normal, x := 200, y := 300,
    dx := 0, dy := 0, speed := 0, launchedAt := 0 }

/-- C1 witness: a concrete non-obstacle contact resolves the tick and
destroys the projectile. -/
theorem c1_contact_scan_excludes_obstacles_witness :
    updateActiveBubble specMetrics [] [[some wRainbowCell]] wC1Bubble 0 =
      (none, 1) := by
  refine c1_contact_scan_excludes_obstacles specMetrics [] _ wC1Bubble 0
    0 0 wRainbowCell
    (by norm_num [integratedY, wC1Bubble, specMetrics])
    (by norm_num) (by norm_num [GRID_COLS]) rfl
    (by simp [wRainbowCell]) ?_
  norm_num [sqrtLeQ, bouncedX, bouncedDx, hitsWall, integratedX,
    integratedY, clamp, wC1Bubble, wRainbowCell, specMetrics]

/-- Sample obstacle cell in column 1, center `(130, 210)`. -/
def wObstacleCellB : Cell :=
  { color := "#556", type := BubbleType.obstacle, x := 130, y := 210 }

/-- Grid with an empty slot in column 0 and the obstacle in column 1. -/
def wObstacleGridB : Grid := [[none, some wObstacleCellB]]

/-- Sample stationary projectile one unit diagonally off the second
obstacle's center. -/
def wTouchBubbleB : ActiveBubble :=
  { id := 0, color := "red", type := BubbleType.normal, x := 131, y := 211,
    dx := 0, dy := 0, speed := 0, launchedAt := 0 }

/-- C6 counterexample: the cell at `(0, 1)` is occupied and its distance to
the projectile (squared distance 2) is far below the contact threshold,
yet the tick resolves nothing — the claim's "exactly when" fails on
`obstacle` cells. -/
theorem c6_counterexample_occupied_obstacle_within_threshold :
    cellAt wObstacleGridB 0 1 = some wObstacleCellB ∧
    sqrtLeQ
      ((bouncedX specMetrics wTouchBubbleB 0 -
          (wObstacleCellB.x + ([] : List ℚ).getD 0 0)) *
        (bouncedX specMetrics wTouchBubbleB 0 -
          (wObstacleCellB.x + ([] : List ℚ).getD 0 0)) +
        (integratedY wTouchBubbleB 0 - wObstacleCellB.y) *
          (integratedY wTouchBubbleB 0 - wObstacleCellB.y))
      (specMetrics.bubbleRadius * 2 - 2) = true ∧
    (updateActiveBubble specMetrics [] wObstacleGridB wTouchBubbleB 0).2 =
      0 := by
  have hnone : ∀ bx bY : ℚ,
      findContact specMetrics [] wObstacleGridB bx bY = none := by
    intro bx bY
    rw [findContact_eq_none_iff]
    intro r c hr _
    have hr0 : r = 0 := by
      simp [wObstacleGridB] at hr
      omega
    subst hr0
    cases c with
    | zero => rfl
    | succ c2 =>
      cases c2 with
      | zero => rfl
      | succ c3 => rfl
  refine ⟨rfl, ?_, ?_⟩
  · norm_num [sqrtLeQ, bouncedX, bouncedDx, hitsWall, integratedX,
      integratedY, clamp, wTouchBubbleB, wObstacleCellB, specMetrics]
  · unfold updateActiveBubble
    rw [if_neg (by norm_num [integratedY, wTouchBubbleB, specMetrics]),
      hnone]

/-- Sample normal cell with center `(100, 100)` already declared as
`wRedCell`; this projectile sits one unit diagonally off it. -/
def wNearBubble : ActiveBubble :=
  { id := 0, color := "red", type := BubbleType.normal, x := 101, y := 101,
    dx := 0, dy := 0, speed := 0, launchedAt := 0 }

/-- C6 witness: the characterization applied to a concrete grid with one
normal cell in range; the tick resolves. -/
theorem c6_contact_distance_characterization_witness :
    (updateActiveBubble specMetrics [] [[some wRedCell]] wNearBubble 0).2 =
      1 := by
  have h := c6_contact_distance_characterization specMetrics []
    [[some wRedCell]] wNearBubble 0
    (by norm_num [integratedY, wNearBubble, specMetrics])
  refine h.mpr ⟨0, 0, wRedCell, by norm_num, by norm_num [GRID_COLS], rfl,
    by simp [wRedCell], ?_⟩
  norm_num [sqrtLeQ, bouncedX, bouncedDx, hitsWall, integratedX,
    integratedY, clamp, wNearBubble, wRedCell, specMetrics]

/-- C2: within one tick of the animation loop, descent — including its
failure-line check and life loss — is evaluated before projectile motion
and collision: whenever the descent fires in a tick and the freshly dropped
grid breaches the failure line, the tick ends with one life fewer and the
regenerated grid, and the projectile performs no motion or resolution in
that tick (the life loss already discarded it before the collision step
ran, so the tick's resolution count is 0 — which could not be guaranteed if
projectile motion were evaluated first). -/
theorem c2_descent_before_projectile (m : Metrics) (wave : ℕ → ℚ)
    (newRow : Row) (initGrid : Grid) (s : SimState) (ts delta : ℚ)
    (hnolimit : s.runtime.level.timeLimitSeconds = none)
    (hfires : effectiveInterval s.runtime.level s.freezeUntil ts ≤
      ts - s.runtime.lastDropAt)
    (hbreach : gridReachedFailureLine (dropNewRow newRow s.grid) = true) :
    (animationLoop m wave newRow initGrid s ts delta).1.active = none ∧
    (animationLoop m wave newRow initGrid s ts delta).2 = 0 ∧
    (animationLoop m wave newRow initGrid s ts delta).1.runtime.lives =
      s.runtime.lives - 1 ∧
    (animationLoop m wave newRow initGrid s ts delta).1.grid = initGrid := by
  have hdc := dropCycle_fires_breach newRow initGrid s ts hfires hbreach
  set sMid : SimState :=
    { s with
        grid := dropNewRow newRow s.grid
        runtime := { s.runtime with lastDropAt := ts } } with hsMid
  have hlf := loseLife_fields initGrid sMid
  simp only [animationLoop]
  rw [hdc]
  rw [hlf.1]
  simp only [updateActive]
  have hlevel : (loseLife initGrid sMid).runtime.level.timeLimitSeconds =
      none := by
    rw [hlf.2.2.2.1]
    exact hnolimit
  rw [hlevel]
  exact ⟨rfl, trivial, hlf.2.2.1.trans rfl, hlf.2.1⟩

/-- C2 witness: the ordering consequence on a concrete state whose descent
is due at timestamp 100 and breaches: the tick loses the life and resolves
no projectile motion. -/
theorem c2_descent_before_projectile_witness :
    (animationLoop specMetrics (fun _ => 0) [] [] wDeepState
      100 5).1.runtime.lives = 2 ∧
    (animationLoop specMetrics (fun _ => 0) [] [] wDeepState 100 5).2 = 0 := by
  have h := c2_descent_before_projectile specMetrics (fun _ => 0) [] []
    wDeepState 100 5 rfl
    (by norm_num [effectiveInterval, freezeActive, wDeepState, wSimState,
      wRuntime8, wLevel])
    (by simp [gridReachedFailureLine, dropNewRow, wDeepState, wSimState,
      wDeepGrid, FAILURE_ROW, MAX_ROWS, rowOccupied])
  exact ⟨h.2.2.1.trans (by norm_num [wDeepState, wSimState, wRuntime8]),
    h.2.1⟩

/-- The aim-angle clamp bounds of source lines 98-101:
`min = (-4 * π) / 5` and `max = (-1 * π) / 8`. -/
structure AimAngleConstraints where
  min : ℝ
  max : ℝ

/-- Source `aimAngleConstraints` object. -/
noncomputable def aimAngleConstraints : AimAngleConstraints :=
  { min := -4 * Real.pi / 5, max := -1 * Real.pi / 8 }

/-- The values `aimAngleRef` can hold: its initial value `-π/2` (lines 164
and 206), the pointer-move update — an `atan2` result clamped into the
constraints (lines 712-714, here over an arbitrary real input) — and the
arrow-key steps of ±0.08 followed by the same clamp (lines 737-750). -/
inductive AimReachable : ℝ → Prop where
  | init : AimReachable (-Real.pi / 2)
  | pointer (x : ℝ) :
      AimReachable (clamp x aimAngleConstraints.min aimAngleConstraints.max)
  | keyLeft (a : ℝ) : AimReachable a →
      AimReachable
        (clamp (a - 8 / 100) aimAngleConstraints.min aimAngleConstraints.max)
  | keyRight (a : ℝ) : AimReachable a →
      AimReachable
        (clamp (a + 8 / 100) aimAngleConstraints.min aimAngleConstraints.max)

/-- C9: every value the aim angle can hold lies in the clamp interval
`[-4π/5, -π/8]`, so the initial vertical direction component
`dy = sin(aimAngle)` that `performShoot` writes into every new Active
Projectile is strictly negative — every newly fired projectile initially
travels upward. -/
theorem c9_initial_direction_upward (a : ℝ) (h : AimReachable a) :
    (aimAngleConstraints.min ≤ a ∧ a ≤ aimAngleConstraints.max) ∧
    Real.sin a < 0 := by
  have hpi := Real.pi_pos
  have hle : aimAngleConstraints.min ≤ aimAngleConstraints.max := by
    simp only [aimAngleConstraints]
    nlinarith
  have hrange : aimAngleConstraints.min ≤ a ∧ a ≤ aimAngleConstraints.max := by
    induction h with
    | init =>
      simp only [aimAngleConstraints]
      constructor <;> nlinarith
    | pointer x => exact clamp_le_and_le _ _ _ hle
    | keyLeft a ha hih => exact clamp_le_and_le _ _ _ hle
    | keyRight a ha hih => exact clamp_le_and_le _ _ _ hle
  refine ⟨hrange, ?_⟩
  have h1 : -Real.pi < a := by
    have hlo := hrange.1
    simp only [aimAngleConstraints] at hlo
    nlinarith
  have h2 : a < 0 := by
    have hhi := hrange.2
    simp only [aimAngleConstraints] at hhi
    nlinarith
  exact Real.sin_neg_of_neg_of_neg_pi_lt h2 h1

/-- C9 witness: the initial aim angle `-π/2` is reachable and its sine is
strictly negative. -/
theorem c9_initial_direction_upward_witness :
    AimReachable (-Real.pi / 2) ∧ Real.sin (-Real.pi / 2) < 0 :=
  ⟨AimReachable.init, (c9_initial_direction_upward _ AimReachable.init).2⟩

end BubbleShooter
